import Mathlib

/-!
Shallow embedding of the dimod reference components under verification:
`ExactSolver.sample` from `dimod/reference/samplers/exact_solver.py` and
`Composite.child` from `dimod/core/composite.py`.  External collaborators
that the excerpt only calls (`Vartype.value`, energy evaluation of a binary
quadratic model, the `SampleSet` constructors) are modelled from the spec and
say so in their doc comments.  Numbers are modelled as rationals.
-/

namespace Dimod

/-- The two-valued variable domains of dimod: `SPIN` and `BINARY`. -/
inductive Vartype where
  | SPIN
  | BINARY
deriving DecidableEq

/-- Modelled from the spec: `Vartype.value`, the two canonical per-variable
value sets selected by the domain tag (its defining module `dimod/vartype.py`
is not part of the excerpt; the spec calls them "symmetric ±1 values, or 0/1
values").  Each is a two-element collection; the iteration order used for
`SPIN` matches the enumeration order shown in the `ExactSolver` docstring
example, where sample 0 is `(+1, +1)`. -/
def Vartype.value : Vartype → List ℚ
  | .SPIN => [1, -1]
  | .BINARY => [0, 1]

/-- Modelled from the spec: a Quadratic Model (external collaborator).  It
holds variables in a fixed iteration order, linear biases, quadratic biases
over variable pairs, a scalar offset, and a domain tag.  `len(bqm)` is the
number of variables and `list(bqm)` iterates in the order of `variables`. -/
structure BQM (V : Type) where
  vars : List V
  linear : V → ℚ
  quadratic : List (V × V × ℚ)
  offset : ℚ
  vartype : Vartype

/-- Value assigned to variable `v` by an assignment vector aligned with the
model's variable order (0 for a variable outside the model). -/
def BQM.assignOf [DecidableEq V] (bqm : BQM V) (vec : List ℚ) (v : V) : ℚ :=
  match List.lookup v (bqm.vars.zip vec) with
  | some x => x
  | none => 0

/-- Modelled from the spec: the model's own energy evaluation on an
assignment vector — linear-bias contribution plus quadratic-bias contribution
over all referenced variable pairs plus the offset (the defining module of
the binary quadratic model is not part of the excerpt). -/
def BQM.energyVec [DecidableEq V] (bqm : BQM V) (vec : List ℚ) : ℚ :=
  ((bqm.vars.zip vec).map fun p => bqm.linear p.1 * p.2).sum
    + (bqm.quadratic.map fun q => q.2.2 * bqm.assignOf vec q.1 * bqm.assignOf vec q.2.1).sum
    + bqm.offset

/-- `itertools.product(vals, repeat=n)`: every length-`n` tuple over `vals`,
the leftmost position iterated outermost, exactly as the nested-loop
equivalent given in the Python documentation. -/
def pyProduct (vals : List α) : Nat → List (List α)
  | 0 => [[]]
  | n + 1 => vals.flatMap fun v => (pyProduct vals n).map (v :: ·)

/-- One row of a sample set: an assignment vector (in variable order), its
energy, and its occurrence count. -/
structure SampleRecord where
  assignment : List ℚ
  energy : ℚ
  num_occurrences : Nat
deriving DecidableEq

/-- Modelled from the spec: the Result Set (external collaborator) — an
ordered sequence of records together with the variable labels its columns
correspond to and the shared domain tag. -/
structure SampleSet (V : Type) where
  vars : List V
  vartype : Vartype
  records : List SampleRecord
deriving DecidableEq

/-- The assignment vectors of a sample set, in record order. -/
def SampleSet.assignments (ss : SampleSet V) : List (List ℚ) :=
  ss.records.map SampleRecord.assignment

/-- Modelled from the spec: `SampleSet.from_samples([], vartype, energy=[])`,
the build-from-empty constructor — zero samples, no energy values, tagged
with the given domain tag (`dimod/sampleset.py` is not part of the excerpt). -/
def SampleSet.from_samples_empty (V : Type) (vt : Vartype) : SampleSet V :=
  { vars := [], vartype := vt, records := [] }

/-- Modelled from the spec: `SampleSet.from_samples_bqm((samples, labels), bqm)`,
the build-from-assignments constructor — it derives each record's energy from
the model's own energy evaluation, gives every record an occurrence count of
1, and keeps the samples in the order given, without deduplication, sorting
or filtering (`dimod/sampleset.py` is not part of the excerpt). -/
def SampleSet.from_samples_bqm [DecidableEq V] (samples : List (List ℚ))
    (bqm : BQM V) : SampleSet V :=
  { vars := bqm.vars
    vartype := bqm.vartype
    records := samples.map fun s =>
      { assignment := s, energy := bqm.energyVec s, num_occurrences := 1 } }

/-- Python-level errors surfaced by the embedded code. -/
inductive PyError where
  | indexError
  | typeError (msg : String)
  | runtimeError (msg : String)
deriving DecidableEq

/-- The `ExactSolver` instance: stateless apart from the two configuration
maps set by `__init__`. -/
structure ExactSolver where
  properties : List (String × ℚ)
  parameters : List (String × ℚ)
deriving DecidableEq

/-- `ExactSolver.__init__`: sets `self.properties = {}` and
`self.parameters = {}`. -/
def ExactSolver.init : ExactSolver := { properties := [], parameters := [] }

/-- `ExactSolver.sample(self, bqm)`, the returned value.  The body reads
`n = len(bqm)`; if `n == 0` it returns the empty sample set tagged with the
model's vartype, otherwise it builds
`list(itertools.product(bqm.vartype.value, repeat=n))` and assembles the
result with `SampleSet.from_samples_bqm((samples, list(bqm)), bqm)`. -/
def ExactSolver.sample [DecidableEq V] (bqm : BQM V) : SampleSet V :=
  let n := bqm.vars.length
  if n = 0 then
    SampleSet.from_samples_empty V bqm.vartype
  else
    SampleSet.from_samples_bqm (pyProduct bqm.vartype.value n) bqm

/-- `ExactSolver.sample` seen as a method call on a receiver: the body of the
Python method never assigns to `self` (its only mention of `self` is as the
receiver), so the instance after the call is the instance before it and the
result depends only on `bqm`. -/
def ExactSolver.sampleMethod [DecidableEq V] (self : ExactSolver) (bqm : BQM V) :
    SampleSet V × ExactSolver :=
  (ExactSolver.sample bqm, self)

/-- The parameter list of `ExactSolver.sample` after `self`, read off the
source line `def sample(self, bqm):`; the signature declares no keyword
catch-all. -/
def ExactSolver.sampleArgNames : List String := ["bqm"]

/-- Python call semantics for `solver.sample(bqm, **kwargs)` against the
signature `def sample(self, bqm):`: the model binds positionally, and every
keyword argument is either unexpected or rebinds `bqm`, so the call raises
`TypeError` unless `kwargs` is empty. -/
def ExactSolver.sampleCall [DecidableEq V] (bqm : BQM V)
    (kwargs : List (String × ℚ)) : Except PyError (SampleSet V) :=
  if kwargs.isEmpty then .ok (ExactSolver.sample bqm)
  else .error (.typeError "sample() got an unexpected keyword argument")

/-- `children[0]` under Python subscript semantics, where the `children`
attribute may hold a list or `None` (as in the documented pattern that
initializes `children = None` at class level): subscripting `None` raises
`TypeError`, subscripting a list out of range raises `IndexError`. -/
def pySubscript (obj : Option (List S)) (i : Nat) : Except PyError S :=
  match obj with
  | none => .error (.typeError "NoneType object is not subscriptable")
  | some l =>
    match l.get? i with
    | some x => .ok x
    | none => .error .indexError

/-- `Composite.child`: `try: return self.children[0] except IndexError:
raise RuntimeError(...)` — only `IndexError` is converted; any other error
from the subscript propagates unchanged. -/
def Composite.child (children : Option (List S)) : Except PyError S :=
  match pySubscript children 0 with
  | .ok x => .ok x
  | .error .indexError =>
      .error (.runtimeError "A Composite must have at least one child Sampler")
  | .error e => .error e

/-! ### Basic facts about the embedded operations -/

theorem sum_map_const (l : List α) (c : Nat) : (l.map fun _ => c).sum = l.length * c := by
  induction l with
  | nil => simp
  | cons x xs ih =>
    simp only [List.map_cons, List.sum_cons, ih, List.length_cons, Nat.succ_mul]
    omega

theorem pyProduct_length (vals : List α) (n : Nat) :
    (pyProduct vals n).length = vals.length ^ n := by
  induction n with
  | zero => simp [pyProduct]
  | succ n ih =>
    rw [pyProduct, List.length_flatMap]
    simp only [Function.comp_def, List.length_map, ih]
    rw [sum_map_const, pow_succ, Nat.mul_comm]

theorem mem_pyProduct {vals : List α} {n : Nat} {xs : List α} :
    xs ∈ pyProduct vals n ↔ xs.length = n ∧ ∀ x ∈ xs, x ∈ vals := by
  induction n generalizing xs with
  | zero =>
    simp only [pyProduct, List.mem_singleton, List.length_eq_zero]
    constructor
    · rintro rfl; simp
    · rintro ⟨rfl, -⟩; rfl
  | succ n ih =>
    simp only [pyProduct, List.mem_flatMap, List.mem_map]
    constructor
    · rintro ⟨v, hv, ys, hys, rfl⟩
      obtain ⟨hl, hall⟩ := ih.mp hys
      refine ⟨by simp [hl], ?_⟩
      intro x hx
      rcases List.mem_cons.mp hx with rfl | hx
      · exact hv
      · exact hall x hx
    · rintro ⟨hl, hall⟩
      cases xs with
      | nil => simp at hl
      | cons x t =>
        refine ⟨x, hall x (by simp), t,
          ih.mpr ⟨by simpa using hl, fun y hy => hall y (List.mem_cons_of_mem _ hy)⟩, rfl⟩

theorem pyProduct_nodup {vals : List α} (h : vals.Nodup) (n : Nat) :
    (pyProduct vals n).Nodup := by
  induction n with
  | zero => simp [pyProduct]
  | succ n ih =>
    rw [pyProduct, List.nodup_flatMap]
    constructor
    · exact fun v _ => ih.map List.cons_injective
    · refine h.imp ?_
      intro v w hvw x hxv hxw
      obtain ⟨ys, -, rfl⟩ := List.mem_map.mp hxv
      obtain ⟨zs, -, hz⟩ := List.mem_map.mp hxw
      injection hz with h1 h2
      exact hvw h1.symm

theorem pyProduct_pair_succ (a b : α) (n : Nat) :
    pyProduct [a, b] (n + 1)
      = ((pyProduct [a, b] n).map (a :: ·)) ++ ((pyProduct [a, b] n).map (b :: ·)) := by
  simp [pyProduct]

theorem pyProduct_pairwise_lex {a b : α} (r : α → α → Prop) (hr : r a b) (n : Nat) :
    (pyProduct [a, b] n).Pairwise (List.Lex r) := by
  induction n with
  | zero => simp [pyProduct]
  | succ n ih =>
    rw [pyProduct_pair_succ, List.pairwise_append]
    refine ⟨?_, ?_, ?_⟩
    · exact List.pairwise_map.mpr (ih.imp fun h => List.Lex.cons h)
    · exact List.pairwise_map.mpr (ih.imp fun h => List.Lex.cons h)
    · intro x hx y hy
      obtain ⟨ys, -, rfl⟩ := List.mem_map.mp hx
      obtain ⟨zs, -, rfl⟩ := List.mem_map.mp hy
      exact List.Lex.rel hr

theorem Vartype.value_length (vt : Vartype) : vt.value.length = 2 := by
  cases vt <;> rfl

theorem Vartype.value_nodup (vt : Vartype) : vt.value.Nodup := by
  cases vt <;> decide

theorem ExactSolver.sample_records_of_ne [DecidableEq V] (bqm : BQM V)
    (h : bqm.vars.length ≠ 0) :
    (ExactSolver.sample bqm).records
      = (pyProduct bqm.vartype.value bqm.vars.length).map fun s =>
          { assignment := s, energy := bqm.energyVec s, num_occurrences := 1 } := by
  simp [ExactSolver.sample, h, SampleSet.from_samples_bqm]

theorem ExactSolver.sample_assignments_of_ne [DecidableEq V] (bqm : BQM V)
    (h : bqm.vars.length ≠ 0) :
    (ExactSolver.sample bqm).assignments
      = pyProduct bqm.vartype.value bqm.vars.length := by
  rw [SampleSet.assignments, ExactSolver.sample_records_of_ne bqm h, List.map_map]
  simp [Function.comp_def]

/-! ### Concrete models used by the witnesses -/

/-- The two-variable SPIN model of the spec's concrete scenario 1
(`h = {a: -0.5, b: 1.0}`, `J = {(a,b): -1.5}`, offset 0), with `0` for `a`
and `1` for `b`. -/
def bqmEx : BQM Nat :=
  { vars := [0, 1]
    linear := fun v => if v = 0 then -1/2 else if v = 1 then 1 else 0
    quadratic := [(0, 1, -3/2)]
    offset := 0
    vartype := .SPIN }

/-- A model with no variables. -/
def bqmEmpty : BQM Nat :=
  { vars := [], linear := fun _ => 0, quadratic := [], offset := 0, vartype := .SPIN }

/-- The all-ones record of `bqmEx`'s sample set. -/
def recEx : SampleRecord :=
  { assignment := [1, 1], energy := bqmEx.energyVec [1, 1], num_occurrences := 1 }

/-! ### The claims -/

/-- **C3.** For every Quadratic Model with zero variables,
`ExactSolver.sample` returns an empty Result Set — zero samples and no
energy values — tagged with the model's domain, without enumerating. -/
theorem claim_c3_zero_variables (V : Type) [DecidableEq V] (bqm : BQM V)
    (h : bqm.vars.length = 0) :
    ExactSolver.sample bqm = SampleSet.from_samples_empty V bqm.vartype
      ∧ (ExactSolver.sample bqm).records = []
      ∧ (ExactSolver.sample bqm).vartype = bqm.vartype := by
  refine ⟨by simp [ExactSolver.sample, h], ?_, ?_⟩ <;>
    simp [ExactSolver.sample, h, SampleSet.from_samples_empty]

/-- Witness for C3 at the zero-variable model. -/
theorem claim_c3_zero_variables_witness :
    bqmEmpty.vars.length = 0
      ∧ (ExactSolver.sample bqmEmpty = SampleSet.from_samples_empty Nat bqmEmpty.vartype
          ∧ (ExactSolver.sample bqmEmpty).records = []
          ∧ (ExactSolver.sample bqmEmpty).vartype = bqmEmpty.vartype) :=
  ⟨by decide, claim_c3_zero_variables Nat bqmEmpty (by decide)⟩

/-- **C4.** For every composite whose `children` list is empty, the `child`
accessor fails with the "missing required component" error — and, being a
pure function of `children`, it does so deterministically on every access. -/
theorem claim_c4_empty_children_error (S : Type) :
    Composite.child (some ([] : List S))
      = .error (.runtimeError "A Composite must have at least one child Sampler") :=
  rfl

/-- **C5.** For every composite with a non-empty `children` list, of any
length, the `child` accessor returns exactly `children[0]`. -/
theorem claim_c5_child_is_first (S : Type) (c : S) (cs : List S) :
    Composite.child (some (c :: cs)) = .ok c :=
  rfl

/-- **C8, counterexample.** `ExactSolver.sample` is declared as
`def sample(self, bqm)` with no keyword catch-all, so a call passing a
keyword configuration option (here `num_reads=10`) is rejected with a
`TypeError` rather than accepted. -/
theorem claim_c8_counterexample :
    ExactSolver.sampleCall bqmEx [("num_reads", (10 : ℚ))]
      = .error (.typeError "sample() got an unexpected keyword argument") :=
  rfl

/-- **C8 (amended).** `ExactSolver.sample` exposes the entry point
`sample(model)` with no keyword configuration: the call with the model alone
is accepted and returns `ExactSolver.sample model`, while a call passing any
keyword option is rejected with a `TypeError`. -/
theorem claim_c8_sample_signature (V : Type) [DecidableEq V] (bqm : BQM V) :
    ExactSolver.sampleCall bqm [] = .ok (ExactSolver.sample bqm)
      ∧ ∀ (kw : String × ℚ) (kws : List (String × ℚ)),
          ExactSolver.sampleCall bqm (kw :: kws)
            = .error (.typeError "sample() got an unexpected keyword argument") :=
  ⟨rfl, fun _ _ => rfl⟩

/-- **C9.** `ExactSolver.__init__` leaves `properties` and `parameters`
empty, and `sample` never mutates the instance: the post-state of every call
equals the pre-state, and the returned sample set depends only on the model. -/
theorem claim_c9_stateless (V : Type) [DecidableEq V] :
    ExactSolver.init.properties = [] ∧ ExactSolver.init.parameters = []
      ∧ ∀ (self : ExactSolver) (bqm : BQM V),
          (ExactSolver.sampleMethod self bqm).2 = self
            ∧ (ExactSolver.sampleMethod self bqm).1 = ExactSolver.sample bqm :=
  ⟨rfl, rfl, fun _ _ => ⟨rfl, rfl⟩⟩

/-- **C10.** `Composite.child` converts only the out-of-range subscript
failure into the "missing required component" error: when `children` is not
an indexable sequence (`None`, as in the documented class-level
initialization pattern), the underlying `TypeError` from the subscript
propagates unchanged, and the "missing component" error arises in exactly
the empty-list case. -/
theorem claim_c10_only_index_error_converted (S : Type) :
    Composite.child (none : Option (List S))
        = .error (.typeError "NoneType object is not subscriptable")
      ∧ Composite.child (none : Option (List S)) = pySubscript none 0
      ∧ ∀ children : Option (List S),
          Composite.child children
              = .error (.runtimeError "A Composite must have at least one child Sampler")
            → children = some [] := by
  refine ⟨rfl, rfl, ?_⟩
  intro children h
  match children with
  | none => simp [Composite.child, pySubscript] at h
  | some [] => rfl
  | some (c :: cs) => simp [Composite.child, pySubscript] at h

/-- **C1.** For every Quadratic Model with `n ≥ 1` variables over a
two-valued domain, `ExactSolver.sample` returns exactly `2 ^ n` samples,
each a distinct length-`n` assignment vector over the domain's two values,
and together the samples cover every such assignment exactly once. -/
theorem claim_c1_exhaustive_enumeration (V : Type) [DecidableEq V] (bqm : BQM V)
    (hn : 1 ≤ bqm.vars.length) :
    (ExactSolver.sample bqm).records.length = 2 ^ bqm.vars.length
      ∧ (ExactSolver.sample bqm).assignments.Nodup
      ∧ (∀ s ∈ (ExactSolver.sample bqm).assignments,
          s.length = bqm.vars.length ∧ ∀ x ∈ s, x ∈ bqm.vartype.value)
      ∧ ∀ s : List ℚ, s.length = bqm.vars.length →
          (∀ x ∈ s, x ∈ bqm.vartype.value) →
          s ∈ (ExactSolver.sample bqm).assignments := by
  have h0 : bqm.vars.length ≠ 0 := by omega
  have hA := ExactSolver.sample_assignments_of_ne bqm h0
  refine ⟨?_, ?_, ?_, ?_⟩
  · have hlen : (ExactSolver.sample bqm).records.length
        = (ExactSolver.sample bqm).assignments.length := by
      simp [SampleSet.assignments]
    rw [hlen, hA, pyProduct_length, Vartype.value_length]
  · rw [hA]
    exact pyProduct_nodup (Vartype.value_nodup _) _
  · rw [hA]
    intro s hs
    exact mem_pyProduct.mp hs
  · rw [hA]
    intro s h1 h2
    exact mem_pyProduct.mpr ⟨h1, h2⟩

/-- Witness for C1 at the spec's two-variable SPIN scenario. -/
theorem claim_c1_exhaustive_enumeration_witness :
    1 ≤ bqmEx.vars.length
      ∧ ((ExactSolver.sample bqmEx).records.length = 2 ^ bqmEx.vars.length
          ∧ (ExactSolver.sample bqmEx).assignments.Nodup
          ∧ (∀ s ∈ (ExactSolver.sample bqmEx).assignments,
              s.length = bqmEx.vars.length ∧ ∀ x ∈ s, x ∈ bqmEx.vartype.value)
          ∧ ∀ s : List ℚ, s.length = bqmEx.vars.length →
              (∀ x ∈ s, x ∈ bqmEx.vartype.value) →
              s ∈ (ExactSolver.sample bqmEx).assignments) :=
  ⟨by decide, claim_c1_exhaustive_enumeration Nat bqmEx (by decide)⟩

/-- **C2.** For every Quadratic Model, every record of the sample set
returned by `ExactSolver.sample` carries exactly the model's own energy
evaluation of its assignment vector. -/
theorem claim_c2_energy_consistency (V : Type) [DecidableEq V] (bqm : BQM V)
    (r : SampleRecord) (hr : r ∈ (ExactSolver.sample bqm).records) :
    r.energy = bqm.energyVec r.assignment := by
  by_cases h : bqm.vars.length = 0
  · simp [ExactSolver.sample, h, SampleSet.from_samples_empty] at hr
  · rw [ExactSolver.sample_records_of_ne bqm h] at hr
    obtain ⟨s, -, rfl⟩ := List.mem_map.mp hr
    rfl

/-- Witness for C2: the all-ones record of the spec's SPIN scenario. -/
theorem claim_c2_energy_consistency_witness :
    recEx ∈ (ExactSolver.sample bqmEx).records
      ∧ recEx.energy = bqmEx.energyVec recEx.assignment := by
  have hmem : recEx ∈ (ExactSolver.sample bqmEx).records := by
    rw [ExactSolver.sample_records_of_ne bqmEx (by decide)]
    exact List.mem_map_of_mem _ (by decide)
  exact ⟨hmem, claim_c2_energy_consistency Nat bqmEx recEx hmem⟩

/-- **C6.** For every Quadratic Model with `n ≥ 1` variables whose domain
iterates its two values as `[a, b]`, the samples appear exactly in the order
of the nested Cartesian product (leftmost position outermost), which is
strictly increasing in the lexicographic order that puts `a` before `b`;
the output order is a function of the model alone. -/
theorem claim_c6_enumeration_order (V : Type) [DecidableEq V] (bqm : BQM V)
    (a b : ℚ) (hv : bqm.vartype.value = [a, b]) (hn : 1 ≤ bqm.vars.length) :
    (ExactSolver.sample bqm).assignments = pyProduct [a, b] bqm.vars.length
      ∧ (ExactSolver.sample bqm).assignments.Pairwise
          (List.Lex fun x y => x = a ∧ y = b) := by
  have h0 : bqm.vars.length ≠ 0 := by omega
  have hA := ExactSolver.sample_assignments_of_ne bqm h0
  rw [hv] at hA
  refine ⟨hA, ?_⟩
  rw [hA]
  exact pyProduct_pairwise_lex _ ⟨rfl, rfl⟩ _

/-- Witness for C6 at the spec's two-variable SPIN scenario. -/
theorem claim_c6_enumeration_order_witness :
    bqmEx.vartype.value = [1, -1]
      ∧ 1 ≤ bqmEx.vars.length
      ∧ ((ExactSolver.sample bqmEx).assignments = pyProduct [1, -1] bqmEx.vars.length
          ∧ (ExactSolver.sample bqmEx).assignments.Pairwise
              (List.Lex fun x y => x = 1 ∧ y = -1)) :=
  ⟨by decide, by decide,
    claim_c6_enumeration_order Nat bqmEx 1 (-1) (by decide) (by decide)⟩

/-- **C7.** For every Quadratic Model with `n ≥ 1` variables, every returned
record has occurrence count 1, the sample set is tagged with the model's
variable order and domain, and the records are exactly the enumerated
`(assignment, energy)` pairs in enumeration order — no deduplication,
sorting or filtering. -/
theorem claim_c7_counts_tags_no_postprocessing (V : Type) [DecidableEq V]
    (bqm : BQM V) (hn : 1 ≤ bqm.vars.length) :
    (∀ r ∈ (ExactSolver.sample bqm).records, r.num_occurrences = 1)
      ∧ (ExactSolver.sample bqm).vars = bqm.vars
      ∧ (ExactSolver.sample bqm).vartype = bqm.vartype
      ∧ (ExactSolver.sample bqm).records
          = (pyProduct bqm.vartype.value bqm.vars.length).map fun s =>
              { assignment := s, energy := bqm.energyVec s, num_occurrences := 1 } := by
  have h0 : bqm.vars.length ≠ 0 := by omega
  refine ⟨?_, ?_, ?_, ExactSolver.sample_records_of_ne bqm h0⟩
  · intro r hr
    rw [ExactSolver.sample_records_of_ne bqm h0] at hr
    obtain ⟨s, -, rfl⟩ := List.mem_map.mp hr
    rfl
  · simp [ExactSolver.sample, h0, SampleSet.from_samples_bqm]
  · simp [ExactSolver.sample, h0, SampleSet.from_samples_bqm]

/-- Witness for C7 at the spec's two-variable SPIN scenario. -/
theorem claim_c7_counts_tags_no_postprocessing_witness :
    1 ≤ bqmEx.vars.length
      ∧ ((∀ r ∈ (ExactSolver.sample bqmEx).records, r.num_occurrences = 1)
          ∧ (ExactSolver.sample bqmEx).vars = bqmEx.vars
          ∧ (ExactSolver.sample bqmEx).vartype = bqmEx.vartype
          ∧ (ExactSolver.sample bqmEx).records
              = (pyProduct bqmEx.vartype.value bqmEx.vars.length).map fun s =>
                  { assignment := s, energy := bqmEx.energyVec s,
                    num_occurrences := 1 }) :=
  ⟨by decide, claim_c7_counts_tags_no_postprocessing Nat bqmEx (by decide)⟩

end Dimod
